import Mathlib

/-!
Shallow embedding of `src/shootings_by_state.py`: a pandas pipeline that
downloads two CSV datasets of mass-shooting incidents (Mother Jones and
Gun Violence Archive), normalizes dates / states / school flags, aggregates
incident counts by (Year, State), outer-merges the two aggregates, derives a
`★` school marker, and renders a single HTML report file.

CSV tables are header + string rows; pandas column access, `pd.to_datetime`,
`groupby(...).agg(...)`, `pd.merge(..., how='outer').fillna(0)`, `apply` and
`to_html` are modelled as explicit list computations.  Failures that in the
script surface as raised exceptions are modelled with `Except String`.
-/

namespace Shootings

/-- A parsed calendar date, as produced by `pd.to_datetime`. -/
structure Date where
  year : Int
  month : Nat
  day : Nat
deriving DecidableEq, Repr

/-- Split a character list at `-` separators (helper for ISO date parsing). -/
def splitDashAux : List Char → List Char → List (List Char)
  | [], acc => [acc.reverse]
  | c :: rest, acc =>
    if c = '-' then acc.reverse :: splitDashAux rest [] else splitDashAux rest (c :: acc)

/-- Split a character list on `-`. -/
def splitDash (cs : List Char) : List (List Char) := splitDashAux cs []

/-- Is the character an ASCII decimal digit? -/
def isDigitChar (c : Char) : Bool := 48 ≤ c.toNat && c.toNat ≤ 57

/-- Numeric value of a digit string. -/
def digitsVal (cs : List Char) : Nat := cs.foldl (fun n c => n * 10 + (c.toNat - 48)) 0

/-- Embedding of `pd.to_datetime` on a single cell: parse an ISO `YYYY-MM-DD`
date string, `none` when the cell cannot be parsed (where the script would
raise an exception out of `pd.to_datetime`). -/
def to_datetime (s : String) : Option Date :=
  match splitDash s.toList with
  | [y, m, d] =>
    if y ≠ [] && m ≠ [] && d ≠ [] &&
        y.all isDigitChar && m.all isDigitChar && d.all isDigitChar &&
        1 ≤ digitsVal m && digitsVal m ≤ 12 && 1 ≤ digitsVal d && digitsVal d ≤ 31 then
      some ⟨Int.ofNat (digitsVal y), digitsVal m, digitsVal d⟩
    else none
  | _ => none

/-- A CSV file as read by `pd.read_csv`: a header row naming the columns and
the data rows (cells as strings). -/
structure Csv where
  header : List String
  rows : List (List String)
deriving DecidableEq, Repr

/-- Index of a named column, `none` when the column is absent (pandas would
raise a `KeyError` on `df[name]`). -/
def Csv.colIdx (c : Csv) (name : String) : Option Nat :=
  c.header.findIdx? (fun h => h == name)

/-- Cell of a row at a column index (rows of a parsed CSV are rectangular). -/
def getCell (row : List String) (i : Nat) : String := row.getD i ""

/-- How pandas reads a truthy boolean cell of the `School` column. -/
def parseBool (s : String) : Bool :=
  s == "True" || s == "TRUE" || s == "true" || s == "1"

/-- One normalized incident row after step 2 of the script: the derived
`Year` column, the `State` column, the `School` flag and the constant
per-row count column (`MJ_Count` / `GVA_Count`), set to 1. -/
structure Incident where
  year : Int
  state : String
  school : Bool
  countCol : Nat
deriving DecidableEq, Repr

/-- Normalize one raw CSV row: parse the date cell (error when
`pd.to_datetime` would raise), derive `Year`, read `State`, and read the
`School` flag — defaulting to `False` when the column is absent, as
`df.get('School', False)` does; the count column is the constant 1. -/
def normalizeRow (dateIdx stateIdx : Nat) (schoolIdx : Option Nat) (row : List String) :
    Except String Incident :=
  match to_datetime (getCell row dateIdx) with
  | none => .error ("to_datetime: unable to parse " ++ getCell row dateIdx)
  | some dt =>
    .ok { year := dt.year
          state := getCell row stateIdx
          school := match schoolIdx with
                    | some i => parseBool (getCell row i)
                    | none => false
          countCol := 1 }

/-- Apply a fallible step to every row, propagating the first error (an
uncaught exception aborts the script). -/
def mapExcept (f : α → Except String β) : List α → Except String (List β)
  | [] => .ok []
  | a :: as =>
    match f a with
    | .error e => .error e
    | .ok b =>
      match mapExcept f as with
      | .error e => .error e
      | .ok bs => .ok (b :: bs)

/-- Step 2 of the script for one dataset: look up the date column (named
`Date` for MJ, `Incident Date` for GVA) and the `State` column — a missing
one is a pandas `KeyError` — then normalize every row. -/
def normalize (dateCol : String) (c : Csv) : Except String (List Incident) :=
  match c.colIdx dateCol with
  | none => .error ("KeyError: " ++ dateCol)
  | some di =>
    match c.colIdx "State" with
    | none => .error "KeyError: State"
    | some si => mapExcept (normalizeRow di si (c.colIdx "School")) c.rows

/-- The `groupby` key of an incident: `(Year, State)`. -/
def key (r : Incident) : Int × String := (r.year, r.state)

/-- One row of `mj_agg` / `gva_agg`: the group key, the summed count column
and the summed `School` column (`School_Incidents`). -/
structure AggRow where
  year : Int
  state : String
  count : Nat
  schoolIncidents : Nat
deriving DecidableEq, Repr

/-- The rows of a group: incidents whose `(Year, State)` equal the key. -/
def group (rows : List Incident) (k : Int × String) : List Incident :=
  rows.filter (fun r => decide (key r = k))

/-- The aggregate row of one `(Year, State)` group: the per-group sums of
the count column and of the boolean `School` column. -/
def mkAggRow (rows : List Incident) (k : Int × String) : AggRow :=
  { year := k.1
    state := k.2
    count := ((group rows k).map (fun r => r.countCol)).sum
    schoolIncidents := ((group rows k).map (fun r => if r.school then 1 else 0)).sum }

/-- Embedding of `df.groupby(['Year','State']).agg(Count=(count,'sum'),
School_Incidents=('School','sum')).reset_index()`: one row per distinct
`(Year, State)` key, with the per-group sums of the count column and of the
boolean `School` column. -/
def aggregate (rows : List Incident) : List AggRow :=
  ((rows.map key).dedup).map (mkAggRow rows)

/-- One row of `combined`: the merged `(Year, State)` row carrying both
datasets' counts and school-incident sums (suffixes `_MJ` / `_GVA`). -/
structure CombinedRow where
  year : Int
  state : String
  mjCount : Nat
  gvaCount : Nat
  schoolIncidentsMJ : Nat
  schoolIncidentsGVA : Nat
deriving DecidableEq, Repr

/-- Find the aggregate row of a given `(Year, State)` key, if any. -/
def lookupAgg (t : List AggRow) (k : Int × String) : Option AggRow :=
  t.find? (fun a => decide ((a.year, a.state) = k))

/-- The `(Year, State)` keys of an aggregate table. -/
def aggKeys (t : List AggRow) : List (Int × String) :=
  t.map (fun a => (a.year, a.state))

/-- The merged row of one `(Year, State)` key: each side's fields when its
aggregate has the key, filled with 0 otherwise (`fillna(0)`). -/
def mkCombinedRow (mjAgg gvaAgg : List AggRow) (k : Int × String) : CombinedRow :=
  { year := k.1
    state := k.2
    mjCount := ((lookupAgg mjAgg k).map (fun a => a.count)).getD 0
    gvaCount := ((lookupAgg gvaAgg k).map (fun a => a.count)).getD 0
    schoolIncidentsMJ := ((lookupAgg mjAgg k).map (fun a => a.schoolIncidents)).getD 0
    schoolIncidentsGVA := ((lookupAgg gvaAgg k).map (fun a => a.schoolIncidents)).getD 0 }

/-- Embedding of `pd.merge(mj_agg, gva_agg, on=['Year','State'], how='outer',
suffixes=('_MJ','_GVA')).fillna(0)`: one row per key of either table, fields
of an absent side filled with 0. -/
def merge (mjAgg gvaAgg : List AggRow) : List CombinedRow :=
  ((aggKeys mjAgg ++ aggKeys gvaAgg).dedup).map (mkCombinedRow mjAgg gvaAgg)

/-- The script's `school_marker(row)`: `'★'` when either school-incident sum
is positive, else the empty string. -/
def school_marker (row : CombinedRow) : String :=
  if row.schoolIncidentsMJ > 0 || row.schoolIncidentsGVA > 0 then "★" else ""

/-- A combined row together with its derived `School` marker column. -/
structure MarkedRow where
  base : CombinedRow
  school : String
deriving DecidableEq, Repr

/-- Embedding of `combined['School'] = combined.apply(school_marker, axis=1)`. -/
def addMarker (t : List CombinedRow) : List MarkedRow :=
  t.map (fun r => { base := r, school := school_marker r })

/-- One row of `national_trend`: per-year national totals of both counts. -/
structure TrendRow where
  year : Int
  mjTotal : Nat
  gvaTotal : Nat
deriving DecidableEq, Repr

/-- Embedding of `combined.groupby('Year').agg(MJ_Total=('MJ_Count','sum'),
GVA_Total=('GVA_Count','sum')).reset_index()`. -/
def national_trend (t : List CombinedRow) : List TrendRow :=
  ((t.map (fun r => r.year)).dedup).map (fun y =>
    { year := y
      mjTotal := ((t.filter (fun r => decide (r.year = y))).map (fun r => r.mjCount)).sum
      gvaTotal := ((t.filter (fun r => decide (r.year = y))).map (fun r => r.gvaCount)).sum })

/-- An HTTP response as seen by `requests.get`. -/
structure HttpResponse where
  status_code : Nat
  text : String
deriving DecidableEq, Repr

/-- The script's `download_csv(url)`: the response body when the status code
is 200, otherwise a `ValueError` naming the failed URL.  The response is an
explicit argument (the network effect of `requests.get(url)`). -/
def download_csv (url : String) (resp : HttpResponse) : Except String String :=
  if resp.status_code == 200 then .ok resp.text
  else .error ("Failed to download CSV from " ++ url)

/-- Render one cell of the HTML table. -/
def renderCell (s : String) : String := "<td>" ++ s ++ "</td>"

/-- Render one row of `combined` restricted to the columns
`['Year','State','MJ_Count','GVA_Count','School']`, as `to_html` does. -/
def renderRow (r : MarkedRow) : String :=
  "<tr>" ++ renderCell (toString r.base.year) ++ renderCell r.base.state ++
    renderCell (toString r.base.mjCount) ++ renderCell (toString r.base.gvaCount) ++
    renderCell r.school ++ "</tr>"

/-- Embedding of `combined.to_html(columns=['Year','State','MJ_Count',
'GVA_Count','School'], index=False, border=1, ...)`: the rendered table
fragment, one `<tr>` per combined row. -/
def html_table (t : List MarkedRow) : String :=
  "<table border=\x221\x22 class=\x22dataframe mass-shooting-table\x22>" ++
    "<tr><th>Year</th><th>State</th><th>MJ_Count</th><th>GVA_Count</th><th>School</th></tr>" ++
    String.join (t.map renderRow) ++ "</table>"

/-- Render one data point of the trend chart. -/
def renderTrendRow (r : TrendRow) : String :=
  "(" ++ toString r.year ++ "," ++ toString r.mjTotal ++ "," ++ toString r.gvaTotal ++ ")"

/-- Embedding of `px.line(national_trend, ...).to_html(full_html=False,
include_plotlyjs='cdn')`: a chart fragment determined by the trend table. -/
def trend_chart_html (t : List TrendRow) : String :=
  "<div class=\x22plotly-graph-div\x22 title=\x22National Mass Shooting Trend (MJ vs GVA)\x22>" ++
    String.join (t.map renderTrendRow) ++ "</div>"

/-- The f-string template of the final report: fixed HTML around the
interpolated `html_table` and `trend_chart_html` fragments. -/
def html_content (table chart : String) : String :=
  "<!DOCTYPE html>\n<html lang=\x22en\x22>\n<head>\n<meta charset=\x22UTF-8\x22>\n" ++
    "<title>Hybrid Mass Shooting Report (MJ + GVA)</title>\n</head>\n<body>\n" ++
    "<h1>U.S. Mass Shootings — Hybrid MJ + GVA</h1>\n" ++
    "<p>School shootings are marked with <span class=\x22school\x22>★</span>.</p>\n" ++
    "<h2>State x Year Mass Shootings Table</h2>\n" ++ table ++
    "\n<h2>National Trend Chart</h2>\n" ++ chart ++
    "\n<h2>U.S. Map Placeholder</h2>\n</body>\n</html>\n"

/-- One file written by the script (`open(path, 'w').write(content)`). -/
structure FileWrite where
  path : String
  content : String
deriving DecidableEq, Repr

/-- The merged `(Year, State)` table computed from the two parsed CSVs. -/
def combinedOf (mjCsv gvaCsv : Csv) : Except String (List CombinedRow) :=
  match normalize "Date" mjCsv with
  | .error e => .error e
  | .ok mj =>
    match normalize "Incident Date" gvaCsv with
    | .error e => .error e
    | .ok gva => .ok (merge (aggregate mj) (aggregate gva))

/-- The whole pipeline from the two parsed CSVs to the files the script
writes: normalize both datasets, aggregate, merge, mark, chart, and write
the single report file.  An error models an uncaught exception, in which
case nothing is written. -/
def runPipeline (mjCsv gvaCsv : Csv) : Except String (List FileWrite) :=
  match normalize "Date" mjCsv with
  | .error e => .error e
  | .ok mj =>
    match normalize "Incident Date" gvaCsv with
    | .error e => .error e
    | .ok gva =>
      let combined := merge (aggregate mj) (aggregate gva)
      .ok [{ path := "mass_shootings_report.html"
             content := html_content (html_table (addMarker combined))
               (trend_chart_html (national_trend combined)) }]

/-- An input CSV on which step 2 of the script raises: the date column or
the `State` column is absent (`KeyError`), or some date cell is one that
`pd.to_datetime` cannot parse. -/
def badInput (dateCol : String) (c : Csv) : Prop :=
  c.colIdx dateCol = none ∨ c.colIdx "State" = none ∨
    ∃ di, c.colIdx dateCol = some di ∧ ∃ row ∈ c.rows, to_datetime (getCell row di) = none

/-- A small concrete Mother Jones CSV used to exercise the pipeline. -/
def mjCsvEx : Csv :=
  { header := ["Date", "State", "City", "Killed", "Injured", "School"]
    rows := [["2020-01-02", "TX", "Houston", "4", "0", "True"],
             ["2020-03-05", "TX", "Dallas", "5", "2", "False"],
             ["2021-07-01", "CA", "LA", "4", "1", "False"]] }

/-- A small concrete GVA CSV (no `School` column) used to exercise the
pipeline. -/
def gvaCsvEx : Csv :=
  { header := ["Incident Date", "State", "City"]
    rows := [["2020-01-02", "TX", "Houston"],
             ["2020-05-05", "NY", "NYC"]] }

/-- The normalized incidents of `mjCsvEx`. -/
def mjIncEx : List Incident :=
  [⟨2020, "TX", true, 1⟩, ⟨2020, "TX", false, 1⟩, ⟨2021, "CA", false, 1⟩]

/-- The normalized incidents of `gvaCsvEx`. -/
def gvaIncEx : List Incident := [⟨2020, "TX", false, 1⟩, ⟨2020, "NY", false, 1⟩]

/-- The files a run on `mjCsvEx` and `gvaCsvEx` writes. -/
def fsEx : List FileWrite :=
  [{ path := "mass_shootings_report.html"
     content := html_content
       (html_table (addMarker (merge (aggregate mjIncEx) (aggregate gvaIncEx))))
       (trend_chart_html (national_trend (merge (aggregate mjIncEx) (aggregate gvaIncEx)))) }]

/-- A Mother Jones CSV whose date column has an unparseable value. -/
def badDateCsvEx : Csv :=
  { header := ["Date", "State"]
    rows := [["not-a-date", "TX"]] }

/-! ### Helper lemmas -/

/-- A successful `mapExcept` relates inputs and outputs pointwise. -/
theorem mapExcept_forall₂ {f : α → Except String β} :
    ∀ {l : List α} {out : List β}, mapExcept f l = .ok out →
      List.Forall₂ (fun a b => f a = .ok b) l out := by
  intro l
  induction l with
  | nil => intro out h; cases h; exact List.Forall₂.nil
  | cons a as ih =>
    intro out h
    simp only [mapExcept] at h
    cases hfa : f a with
    | error e => rw [hfa] at h; cases h
    | ok b =>
      rw [hfa] at h
      cases hrest : mapExcept f as with
      | error e => rw [hrest] at h; cases h
      | ok bs =>
        rw [hrest] at h
        cases h
        exact List.Forall₂.cons hfa (ih hrest)

/-- Each element on the right of a `Forall₂` is related to some element on
the left. -/
theorem forall₂_mem_right {R : α → β → Prop} {l1 : List α} {l2 : List β}
    (h : List.Forall₂ R l1 l2) : ∀ b ∈ l2, ∃ a ∈ l1, R a b := by
  induction h with
  | nil => intro b hb; cases hb
  | cons hab _ ih =>
    intro b hb
    rcases List.mem_cons.mp hb with rfl | hb
    · exact ⟨_, List.mem_cons_self .., hab⟩
    · rcases ih b hb with ⟨a, ha, hfa⟩
      exact ⟨a, List.mem_cons_of_mem _ ha, hfa⟩

/-- Every output of a successful `mapExcept` comes from some input. -/
theorem mapExcept_mem_of_ok {f : α → Except String β} {l : List α} {out : List β}
    (h : mapExcept f l = .ok out) : ∀ b ∈ out, ∃ a ∈ l, f a = .ok b :=
  forall₂_mem_right (mapExcept_forall₂ h)

/-- `mapExcept` fails whenever the step fails on some input. -/
theorem mapExcept_error_of_mem {f : α → Except String β} {l : List α} {a : α} {e : String}
    (ha : a ∈ l) (hfa : f a = .error e) : ∃ e', mapExcept f l = .error e' := by
  revert ha
  induction l with
  | nil => exact fun ha => absurd ha (List.not_mem_nil a)
  | cons x xs ih =>
    intro ha
    rcases List.mem_cons.mp ha with rfl | ha
    · exact ⟨e, by simp [mapExcept, hfa]⟩
    · cases hfx : f x with
      | error e'' => exact ⟨e'', by simp [mapExcept, hfx]⟩
      | ok b =>
        rcases ih ha with ⟨e', he'⟩
        exact ⟨e', by simp [mapExcept, hfx, he']⟩

/-- `mapExcept` succeeds when the step succeeds on every input. -/
theorem mapExcept_ok_of_forall {f : α → Except String β} {l : List α}
    (h : ∀ a ∈ l, ∃ b, f a = .ok b) : ∃ out, mapExcept f l = .ok out := by
  induction l with
  | nil => exact ⟨[], rfl⟩
  | cons x xs ih =>
    rcases h x (List.mem_cons_self ..) with ⟨b, hb⟩
    rcases ih (fun a ha => h a (List.mem_cons_of_mem _ ha)) with ⟨out, hout⟩
    exact ⟨b :: out, by simp [mapExcept, hb, hout]⟩

/-- A normalized row always carries the constant count column 1. -/
theorem normalizeRow_countCol {di si : Nat} {so : Option Nat} {row : List String}
    {r : Incident} (h : normalizeRow di si so row = .ok r) : r.countCol = 1 := by
  unfold normalizeRow at h
  cases hdt : to_datetime (getCell row di) with
  | none => rw [hdt] at h; cases h
  | some dt => rw [hdt] at h; cases h; rfl

/-- A normalized row's `Year` is the year of the parsed date. -/
theorem normalizeRow_year {di si : Nat} {so : Option Nat} {row : List String}
    {r : Incident} (h : normalizeRow di si so row = .ok r) :
    ∃ dt, to_datetime (getCell row di) = some dt ∧ r.year = dt.year := by
  unfold normalizeRow at h
  cases hdt : to_datetime (getCell row di) with
  | none => rw [hdt] at h; cases h
  | some dt => rw [hdt] at h; cases h; exact ⟨dt, rfl, rfl⟩

/-- Without a `School` column, every normalized row has `School = False`. -/
theorem normalizeRow_school_none {di si : Nat} {row : List String}
    {r : Incident} (h : normalizeRow di si none row = .ok r) : r.school = false := by
  unfold normalizeRow at h
  cases hdt : to_datetime (getCell row di) with
  | none => rw [hdt] at h; cases h
  | some dt => rw [hdt] at h; cases h; rfl

/-- The sum of a column that is 1 on every row is the number of rows. -/
theorem sum_map_eq_length {g : α → Nat} :
    ∀ {l : List α}, (∀ a ∈ l, g a = 1) → (l.map g).sum = l.length := by
  intro l
  induction l with
  | nil => intro _; rfl
  | cons x xs ih =>
    intro h
    simp only [List.map_cons, List.sum_cons, List.length_cons,
      h x (List.mem_cons_self ..), ih (fun a ha => h a (List.mem_cons_of_mem _ ha))]
    omega

/-- `find?` on a table built per key: found exactly when the key occurs. -/
theorem find?_map_keyed {γ : Type} (g : Int × String → γ) (keyOf : γ → Int × String)
    (hg : ∀ k, keyOf (g k) = k) :
    ∀ (l : List (Int × String)) (k : Int × String),
      (l.map g).find? (fun a => decide (keyOf a = k)) =
        if k ∈ l then some (g k) else none := by
  intro l k
  induction l with
  | nil => simp
  | cons x xs ih =>
    by_cases hx : x = k
    · subst hx
      simp [List.find?_cons, hg]
    · have h1 : ¬ ((fun a => decide (keyOf a = k)) (g x) = true) := by
        simp only [decide_eq_true_eq, hg]
        exact hx
      have hkx : ¬ k = x := fun h => hx h.symm
      rw [List.map_cons,
        @List.find?_cons_of_neg _ (fun a => decide (keyOf a = k)) (g x) (List.map g xs) h1, ih]
      simp [List.mem_cons, hkx]

/-- `lookupAgg` on an aggregate: the group row exactly at the group keys. -/
theorem lookupAgg_aggregate (rows : List Incident) (k : Int × String) :
    lookupAgg (aggregate rows) k =
      if k ∈ (rows.map key).dedup then some (mkAggRow rows k) else none := by
  unfold lookupAgg aggregate
  exact find?_map_keyed (mkAggRow rows) (fun a => (a.year, a.state)) (fun _ => rfl)
    ((rows.map key).dedup) k

/-- The keys of `aggregate rows` are exactly the distinct keys of `rows`. -/
theorem aggKeys_aggregate (rows : List Incident) :
    aggKeys (aggregate rows) = (rows.map key).dedup := by
  simp [aggKeys, aggregate, List.map_map, Function.comp_def, mkAggRow]

/-- In a duplicate-free list, the occurrences of `k` number 1 or 0. -/
theorem length_filter_eq_of_nodup {α : Type} [DecidableEq α] :
    ∀ (l : List α), l.Nodup → ∀ k : α,
      (l.filter (fun x => decide (x = k))).length = if k ∈ l then 1 else 0 := by
  intro l
  induction l with
  | nil => simp
  | cons x xs ih =>
    intro hnd k
    rcases List.nodup_cons.mp hnd with ⟨hx, hxs⟩
    by_cases hxk : x = k
    · subst hxk
      simp [List.filter_cons, ih hxs x, hx]
    · have hkx : ¬ k = x := fun h => hxk h.symm
      simp [List.filter_cons, hxk, hkx, ih hxs k]

/-- A filter and its complement partition the list's length. -/
theorem length_filter_add_length_filter_not {α : Type} (p : α → Bool) :
    ∀ l : List α, (l.filter p).length + (l.filter (fun a => !(p a))).length = l.length := by
  intro l
  induction l with
  | nil => rfl
  | cons x xs ih =>
    by_cases hx : p x
    · simp [List.filter_cons, hx, ← ih]; omega
    · simp [List.filter_cons, hx, ← ih]; omega

/-- Counting rows group by group: summing the group sizes over a
duplicate-free list of keys that covers every row gives the number of rows. -/
theorem sum_filter_length {α β : Type} [DecidableEq β] (f : α → β) :
    ∀ (ks : List β) (l : List α), ks.Nodup → (∀ a ∈ l, f a ∈ ks) →
      (ks.map (fun k => (l.filter (fun a => decide (f a = k))).length)).sum = l.length := by
  intro ks
  induction ks with
  | nil =>
    intro l _ hcov
    cases l with
    | nil => rfl
    | cons a as => exact absurd (hcov a (List.mem_cons_self ..)) (List.not_mem_nil _)
  | cons k0 rest ih =>
    intro l hnd hcov
    rcases List.nodup_cons.mp hnd with ⟨hk0, hrest⟩
    have hstep : ∀ t ∈ rest,
        (l.filter (fun a => decide (f a = t))).length =
        ((l.filter (fun a => !(decide (f a = k0)))).filter
          (fun a => decide (f a = t))).length := by
      intro t ht
      have htk0 : ¬ t = k0 := fun h => hk0 (h ▸ ht)
      rw [List.filter_filter]
      refine congrArg List.length (List.filter_congr ?_)
      intro a _
      by_cases hfa : f a = t
      · simp [hfa, htk0]
      · simp [hfa]
    have hcov' : ∀ a ∈ l.filter (fun a => !(decide (f a = k0))), f a ∈ rest := by
      intro a ha
      rcases List.mem_filter.mp ha with ⟨hal, hne⟩
      have : ¬ (f a = k0) := by simpa using hne
      rcases List.mem_cons.mp (hcov a hal) with h | h
      · exact absurd h this
      · exact h
    calc (((k0 :: rest)).map
          (fun k => (l.filter (fun a => decide (f a = k))).length)).sum
        = (l.filter (fun a => decide (f a = k0))).length +
            (rest.map (fun k => (l.filter (fun a => decide (f a = k))).length)).sum := by
          simp
      _ = (l.filter (fun a => decide (f a = k0))).length +
            (rest.map (fun k => ((l.filter (fun a => !(decide (f a = k0)))).filter
              (fun a => decide (f a = k))).length)).sum := by
          rw [List.map_congr_left hstep]
      _ = (l.filter (fun a => decide (f a = k0))).length +
            (l.filter (fun a => !(decide (f a = k0)))).length := by
          rw [ih _ hrest hcov']
      _ = l.length := length_filter_add_length_filter_not _ l

/-- Every row of a successfully normalized dataset has count column 1. -/
theorem normalize_countCol {dc : String} {c : Csv} {rows : List Incident}
    (h : normalize dc c = .ok rows) : ∀ r ∈ rows, r.countCol = 1 := by
  unfold normalize at h
  cases hdi : c.colIdx dc with
  | none => rw [hdi] at h; cases h
  | some di =>
    rw [hdi] at h
    cases hsi : c.colIdx "State" with
    | none => rw [hsi] at h; cases h
    | some si =>
      rw [hsi] at h
      intro r hr
      rcases mapExcept_mem_of_ok h r hr with ⟨row, _, hrow⟩
      exact normalizeRow_countCol hrow

/-- The group of a key that no row carries is empty. -/
theorem group_eq_nil_of_not_mem {rows : List Incident} {k : Int × String}
    (h : k ∉ rows.map key) : group rows k = [] := by
  unfold group
  refine List.filter_eq_nil_iff.mpr ?_
  intro r hr
  simp only [decide_eq_true_eq]
  exact fun hkey => h (List.mem_map.mpr ⟨r, hr, hkey⟩)

/-- The merged count field of a key is the size of that key's group, for a
dataset whose count column is the constant 1. -/
theorem lookup_count_eq_group_length {rows : List Incident}
    (h1 : ∀ r ∈ rows, r.countCol = 1) (k : Int × String) :
    ((lookupAgg (aggregate rows) k).map (fun a => a.count)).getD 0 = (group rows k).length := by
  rw [lookupAgg_aggregate]
  by_cases hk : k ∈ (rows.map key).dedup
  · rw [if_pos hk]
    show (mkAggRow rows k).count = (group rows k).length
    unfold mkAggRow
    refine sum_map_eq_length ?_
    intro r hr
    have : r ∈ rows ∧ key r = k := by simpa [group] using hr
    exact h1 r this.1
  · rw [if_neg hk, group_eq_nil_of_not_mem (fun hm => hk (List.mem_dedup.mpr hm))]
    rfl

/-- The merged school-incident field of a key counts that key's school
rows. -/
theorem lookup_school_eq_schoolSum (rows : List Incident) (k : Int × String) :
    ((lookupAgg (aggregate rows) k).map (fun a => a.schoolIncidents)).getD 0 =
      ((group rows k).map (fun r => if r.school then 1 else 0)).sum := by
  rw [lookupAgg_aggregate]
  by_cases hk : k ∈ (rows.map key).dedup
  · rw [if_pos hk]; rfl
  · rw [if_neg hk, group_eq_nil_of_not_mem (fun hm => hk (List.mem_dedup.mpr hm))]
    rfl

/-! ### Claims -/

/-- C1: in the merged table, the `School` marker column is `'★'` iff at
least one of the two school-incident sums of the row is positive, and is
the empty string otherwise. -/
theorem c1_school_marker (mj gva : List Incident) :
    ∀ r ∈ addMarker (merge (aggregate mj) (aggregate gva)),
      (r.school = "★" ↔ 0 < r.base.schoolIncidentsMJ ∨ 0 < r.base.schoolIncidentsGVA) ∧
      (r.school = "" ↔ ¬ (0 < r.base.schoolIncidentsMJ ∨ 0 < r.base.schoolIncidentsGVA)) := by
  intro r hr
  rcases List.mem_map.mp hr with ⟨c, _, rfl⟩
  show (school_marker c = "★" ↔ _) ∧ (school_marker c = "" ↔ _)
  unfold school_marker
  by_cases h : c.schoolIncidentsMJ > 0 ∨ c.schoolIncidentsGVA > 0
  · have hb : (c.schoolIncidentsMJ > 0 || c.schoolIncidentsGVA > 0) = true := by
      simpa [decide_eq_true_eq] using h
    rw [if_pos hb]
    exact ⟨iff_of_true rfl h, iff_of_false (by decide) (not_not_intro h)⟩
  · have hb : ¬ ((c.schoolIncidentsMJ > 0 || c.schoolIncidentsGVA > 0) = true) := by
      simpa using h
    rw [if_neg hb]
    exact ⟨iff_of_false (by decide) h, iff_of_true rfl (by exact h)⟩

/-- Witness for C1 at a concrete merged table and row. -/
theorem c1_school_marker_witness :
    (({ base := ⟨2020, "TX", 2, 0, 1, 0⟩, school := "★" } : MarkedRow).school = "★" ↔
        0 < (({ base := ⟨2020, "TX", 2, 0, 1, 0⟩, school := "★" } : MarkedRow)).base.schoolIncidentsMJ ∨
        0 < (({ base := ⟨2020, "TX", 2, 0, 1, 0⟩, school := "★" } : MarkedRow)).base.schoolIncidentsGVA) ∧
      (({ base := ⟨2020, "TX", 2, 0, 1, 0⟩, school := "★" } : MarkedRow).school = "" ↔
        ¬ (0 < (({ base := ⟨2020, "TX", 2, 0, 1, 0⟩, school := "★" } : MarkedRow)).base.schoolIncidentsMJ ∨
          0 < (({ base := ⟨2020, "TX", 2, 0, 1, 0⟩, school := "★" } : MarkedRow)).base.schoolIncidentsGVA)) :=
  c1_school_marker [⟨2020, "TX", true, 1⟩, ⟨2020, "TX", false, 1⟩] [⟨2020, "NY", false, 1⟩]
    { base := ⟨2020, "TX", 2, 0, 1, 0⟩, school := "★" } (by decide)

/-- C6: `download_csv` returns the response body exactly when the status
code is 200, raises a `ValueError` whose message contains the failed URL for
every other status code, and has no other outcome. -/
theorem c6_download_csv (url : String) (resp : HttpResponse) :
    (resp.status_code = 200 → download_csv url resp = .ok resp.text) ∧
    (resp.status_code ≠ 200 →
      ∃ msg, download_csv url resp = .error msg ∧ ∃ pre post, msg = pre ++ url ++ post) ∧
    ((∃ body, download_csv url resp = .ok body) ∨
      (∃ msg, download_csv url resp = .error msg)) := by
  refine ⟨?_, ?_, ?_⟩
  · intro h; simp [download_csv, h]
  · intro h
    have hb : (resp.status_code == 200) = false := by simpa using h
    exact ⟨"Failed to download CSV from " ++ url, by simp [download_csv, hb],
      "Failed to download CSV from ", "", by simp⟩
  · cases h : resp.status_code == 200
    · exact .inr ⟨"Failed to download CSV from " ++ url, by simp [download_csv, h]⟩
    · exact .inl ⟨resp.text, by simp [download_csv, h]⟩

/-- Witness for C6 at a 404 response. -/
theorem c6_download_csv_witness :
    ∃ msg, download_csv "http://example.com/a.csv" ⟨404, "nope"⟩ = .error msg ∧
      ∃ pre post, msg = pre ++ "http://example.com/a.csv" ++ post :=
  (c6_download_csv "http://example.com/a.csv" ⟨404, "nope"⟩).2.1 (by decide)

/-- C10: the pipeline is deterministic — byte-identical input CSVs yield an
identical merged table and identical written files. -/
theorem c10_deterministic (m1 g1 m2 g2 : Csv) (hm : m1 = m2) (hg : g1 = g2) :
    combinedOf m1 g1 = combinedOf m2 g2 ∧ runPipeline m1 g1 = runPipeline m2 g2 := by
  subst hm
  subst hg
  exact ⟨rfl, rfl⟩

/-- Witness for C10 at concrete CSVs. -/
theorem c10_deterministic_witness :
    combinedOf mjCsvEx gvaCsvEx = combinedOf mjCsvEx gvaCsvEx ∧
      runPipeline mjCsvEx gvaCsvEx = runPipeline mjCsvEx gvaCsvEx :=
  c10_deterministic mjCsvEx gvaCsvEx mjCsvEx gvaCsvEx rfl rfl

/-- A bad input makes normalization fail with an error. -/
theorem normalize_error_of_badInput {dc : String} {c : Csv} (h : badInput dc c) :
    ∃ e, normalize dc c = .error e := by
  rcases h with h | h | ⟨di, hdi, row, hrow, hbad⟩
  · exact ⟨"KeyError: " ++ dc, by simp [normalize, h]⟩
  · cases hdi : c.colIdx dc with
    | none => exact ⟨"KeyError: " ++ dc, by simp [normalize, hdi]⟩
    | some di => exact ⟨"KeyError: State", by simp [normalize, hdi, h]⟩
  · cases hsi : c.colIdx "State" with
    | none => exact ⟨"KeyError: State", by simp [normalize, hdi, hsi]⟩
    | some si =>
      have hstep : normalizeRow di si (c.colIdx "School") row =
          .error ("to_datetime: unable to parse " ++ getCell row di) := by
        simp [normalizeRow, hbad]
      rcases mapExcept_error_of_mem hrow hstep with ⟨e, he⟩
      exact ⟨e, by simp [normalize, hdi, hsi, he]⟩

/-- C5: for every input row whose date cell parses, the derived `Year`
column equals the year component of the parsed date. -/
theorem c5_year_column (dc : String) (c : Csv) (out : List Incident)
    (h : normalize dc c = .ok out) :
    ∃ di, c.colIdx dc = some di ∧
      List.Forall₂ (fun row inc =>
        ∃ dt, to_datetime (getCell row di) = some dt ∧ inc.year = dt.year) c.rows out := by
  unfold normalize at h
  cases hdi : c.colIdx dc with
  | none => rw [hdi] at h; cases h
  | some di =>
    rw [hdi] at h
    cases hsi : c.colIdx "State" with
    | none => rw [hsi] at h; cases h
    | some si =>
      rw [hsi] at h
      exact ⟨di, rfl,
        List.Forall₂.imp (fun _ _ hab => normalizeRow_year hab) (mapExcept_forall₂ h)⟩

/-- Witness for C5 at a concrete CSV. -/
theorem c5_year_column_witness :
    ∃ di, mjCsvEx.colIdx "Date" = some di ∧
      List.Forall₂ (fun row inc =>
        ∃ dt, to_datetime (getCell row di) = some dt ∧ Incident.year inc = dt.year)
        mjCsvEx.rows
        [⟨2020, "TX", true, 1⟩, ⟨2020, "TX", false, 1⟩, ⟨2021, "CA", false, 1⟩] :=
  c5_year_column "Date" mjCsvEx
    [⟨2020, "TX", true, 1⟩, ⟨2020, "TX", false, 1⟩, ⟨2021, "CA", false, 1⟩] rfl

/-- C9: a dataset without a `School` column is processed as all-`False`
school flags — every school-incident sum is 0, so it never by itself turns
on the `★` marker — and, provided its columns and dates are otherwise fine,
it is processed without error. -/
theorem c9_missing_school_column (dc : String) (c : Csv) (h : c.colIdx "School" = none) :
    (∀ out, normalize dc c = .ok out →
      (∀ r ∈ out, r.school = false) ∧ (∀ a ∈ aggregate out, a.schoolIncidents = 0)) ∧
    ((∃ di, c.colIdx dc = some di ∧
        ∀ row ∈ c.rows, ∃ dt, to_datetime (getCell row di) = some dt) →
      (∃ si, c.colIdx "State" = some si) → ∃ out, normalize dc c = .ok out) := by
  constructor
  · intro out hout
    have hschool : ∀ r ∈ out, r.school = false := by
      unfold normalize at hout
      cases hdi : c.colIdx dc with
      | none => rw [hdi] at hout; cases hout
      | some di =>
        rw [hdi] at hout
        cases hsi : c.colIdx "State" with
        | none => rw [hsi] at hout; cases hout
        | some si =>
          rw [hsi, h] at hout
          intro r hr
          rcases mapExcept_mem_of_ok hout r hr with ⟨row, _, hrow⟩
          exact normalizeRow_school_none hrow
    refine ⟨hschool, ?_⟩
    intro a ha
    rcases List.mem_map.mp ha with ⟨k, _, rfl⟩
    show ((group out k).map (fun r => if r.school then 1 else 0)).sum = 0
    refine List.sum_eq_zero ?_
    intro x hx
    rcases List.mem_map.mp hx with ⟨r, hr, rfl⟩
    have : r ∈ out ∧ key r = k := by simpa [group] using hr
    simp [hschool r this.1]
  · rintro ⟨di, hdi, hdates⟩ ⟨si, hsi⟩
    have : ∀ row ∈ c.rows, ∃ inc, normalizeRow di si none row = .ok inc := by
      intro row hrow
      rcases hdates row hrow with ⟨dt, hdt⟩
      exact ⟨{ year := dt.year, state := getCell row si, school := false, countCol := 1 },
        by simp [normalizeRow, hdt]⟩
    rcases mapExcept_ok_of_forall this with ⟨out, hout⟩
    exact ⟨out, by simp [normalize, hdi, hsi, h, hout]⟩

/-- Witness for C9 at a concrete CSV without a `School` column. -/
theorem c9_missing_school_column_witness :
    (∀ r ∈ [(⟨2020, "TX", false, 1⟩ : Incident), ⟨2020, "NY", false, 1⟩], r.school = false) ∧
      (∀ a ∈ aggregate [(⟨2020, "TX", false, 1⟩ : Incident), ⟨2020, "NY", false, 1⟩],
        a.schoolIncidents = 0) :=
  (c9_missing_school_column "Incident Date" gvaCsvEx rfl).1
    [⟨2020, "TX", false, 1⟩, ⟨2020, "NY", false, 1⟩] rfl

/-- C7: a missing required column or an unparseable date cell in either
input aborts the pipeline with an uncaught exception, and no output file is
produced. -/
theorem c7_uncaught_exception (mjCsv gvaCsv : Csv)
    (h : badInput "Date" mjCsv ∨ badInput "Incident Date" gvaCsv) :
    (∃ e, runPipeline mjCsv gvaCsv = .error e) ∧
      ∀ fs, runPipeline mjCsv gvaCsv ≠ .ok fs := by
  have herr : ∃ e, runPipeline mjCsv gvaCsv = .error e := by
    rcases h with h | h
    · rcases normalize_error_of_badInput h with ⟨e, he⟩
      exact ⟨e, by simp [runPipeline, he]⟩
    · cases hmj : normalize "Date" mjCsv with
      | error e => exact ⟨e, by simp [runPipeline, hmj]⟩
      | ok mj =>
        rcases normalize_error_of_badInput h with ⟨e, he⟩
        exact ⟨e, by simp [runPipeline, hmj, he]⟩
  rcases herr with ⟨e, he⟩
  exact ⟨⟨e, he⟩, fun fs hfs => by rw [he] at hfs; cases hfs⟩

/-- Witness for C7 at a CSV with an unparseable date. -/
theorem c7_uncaught_exception_witness :
    (∃ e, runPipeline badDateCsvEx gvaCsvEx = .error e) ∧
      ∀ fs, runPipeline badDateCsvEx gvaCsvEx ≠ .ok fs :=
  c7_uncaught_exception badDateCsvEx gvaCsvEx
    (Or.inl (Or.inr (Or.inr ⟨0, rfl, ["not-a-date", "TX"], by decide, rfl⟩)))

/-- The group of a key is the rows whose `Year` and `State` equal it. -/
theorem group_eq_filter_pair (rows : List Incident) (y : Int) (s : String) :
    group rows (y, s) = rows.filter (fun r => decide (r.year = y ∧ r.state = s)) := by
  unfold group
  refine List.filter_congr ?_
  intro r _
  rw [decide_eq_decide]
  simp [key, Prod.ext_iff]

/-- C2: for every `(year, state)` pair present in a normalized dataset, the
aggregated count of that pair is the number of rows of the dataset whose
derived `Year` and `State` equal the pair (the constant column of 1 summed
within the group). -/
theorem c2_aggregate_count (dc : String) (c : Csv) (rows : List Incident)
    (h : normalize dc c = .ok rows) :
    ∀ (y : Int) (s : String), (y, s) ∈ rows.map key →
      ∃ a, lookupAgg (aggregate rows) (y, s) = some a ∧
        a.count = (rows.filter (fun r => decide (r.year = y ∧ r.state = s))).length := by
  intro y s hmem
  have hk : (y, s) ∈ (rows.map key).dedup := List.mem_dedup.mpr hmem
  refine ⟨mkAggRow rows (y, s), by rw [lookupAgg_aggregate, if_pos hk], ?_⟩
  have hcount : (mkAggRow rows (y, s)).count = (group rows (y, s)).length := by
    show ((group rows (y, s)).map (fun r => r.countCol)).sum = (group rows (y, s)).length
    refine sum_map_eq_length ?_
    intro r hr
    have : r ∈ rows ∧ key r = (y, s) := by simpa [group] using hr
    exact normalize_countCol h r this.1
  rw [hcount, group_eq_filter_pair]

/-- Witness for C2 at a concrete dataset and pair. -/
theorem c2_aggregate_count_witness :
    ∃ a, lookupAgg (aggregate mjIncEx) (2020, "TX") = some a ∧
      a.count = (mjIncEx.filter (fun r => decide (r.year = 2020 ∧ r.state = "TX"))).length :=
  c2_aggregate_count "Date" mjCsvEx mjIncEx rfl 2020 "TX" (by decide)

/-- C3: the merged table has exactly one row for every `(year, state)` key
of either grouped table and no others, and a row whose key one dataset
lacks carries 0 in that dataset's count and school-incident fields. -/
theorem c3_merge_outer_join (mjAgg gvaAgg : List AggRow) :
    (∀ k : Int × String,
      ((merge mjAgg gvaAgg).filter (fun r => decide ((r.year, r.state) = k))).length =
        if k ∈ aggKeys mjAgg ++ aggKeys gvaAgg then 1 else 0) ∧
    (∀ r ∈ merge mjAgg gvaAgg,
      ((r.year, r.state) ∉ aggKeys mjAgg → r.mjCount = 0 ∧ r.schoolIncidentsMJ = 0) ∧
      ((r.year, r.state) ∉ aggKeys gvaAgg → r.gvaCount = 0 ∧ r.schoolIncidentsGVA = 0)) := by
  constructor
  · intro k
    unfold merge
    rw [List.filter_map, List.length_map]
    have hcong : ((aggKeys mjAgg ++ aggKeys gvaAgg).dedup.filter
          ((fun r => decide ((r.year, r.state) = k)) ∘ mkCombinedRow mjAgg gvaAgg)) =
        ((aggKeys mjAgg ++ aggKeys gvaAgg).dedup.filter (fun x => decide (x = k))) := by
      refine List.filter_congr ?_
      intro x _
      show decide (((mkCombinedRow mjAgg gvaAgg x).year,
        (mkCombinedRow mjAgg gvaAgg x).state) = k) = decide (x = k)
      rw [decide_eq_decide]
      show ((x.1, x.2) = k) ↔ (x = k)
      rw [Prod.mk.eta]
    rw [hcong, length_filter_eq_of_nodup _ (List.nodup_dedup _) k]
    by_cases hk : k ∈ aggKeys mjAgg ++ aggKeys gvaAgg
    · rw [if_pos (List.mem_dedup.mpr hk), if_pos hk]
    · rw [if_neg (fun hc => hk (List.mem_dedup.mp hc)), if_neg hk]
  · intro r hr
    rcases List.mem_map.mp hr with ⟨k, _, rfl⟩
    constructor
    · intro habs
      have habs' : k ∉ aggKeys mjAgg := by
        simpa [mkCombinedRow, Prod.mk.eta] using habs
      have hnone : lookupAgg mjAgg k = none := by
        unfold lookupAgg
        rw [List.find?_eq_none]
        intro a ha
        simp only [decide_eq_true_eq]
        exact fun hkey => habs' (List.mem_map.mpr ⟨a, ha, hkey⟩)
      constructor
      · show ((lookupAgg mjAgg k).map (fun a => a.count)).getD 0 = 0
        rw [hnone]; rfl
      · show ((lookupAgg mjAgg k).map (fun a => a.schoolIncidents)).getD 0 = 0
        rw [hnone]; rfl
    · intro habs
      have habs' : k ∉ aggKeys gvaAgg := by
        simpa [mkCombinedRow, Prod.mk.eta] using habs
      have hnone : lookupAgg gvaAgg k = none := by
        unfold lookupAgg
        rw [List.find?_eq_none]
        intro a ha
        simp only [decide_eq_true_eq]
        exact fun hkey => habs' (List.mem_map.mpr ⟨a, ha, hkey⟩)
      constructor
      · show ((lookupAgg gvaAgg k).map (fun a => a.count)).getD 0 = 0
        rw [hnone]; rfl
      · show ((lookupAgg gvaAgg k).map (fun a => a.schoolIncidents)).getD 0 = 0
        rw [hnone]; rfl

/-- Witness for C3 at concrete aggregates, a concrete key, and a concrete
merged row whose key the MJ side lacks. -/
theorem c3_merge_outer_join_witness :
    (((merge (aggregate mjIncEx) (aggregate gvaIncEx)).filter
        (fun r => decide ((r.year, r.state) = ((2020 : Int), "NY")))).length =
      if ((2020 : Int), "NY") ∈ aggKeys (aggregate mjIncEx) ++ aggKeys (aggregate gvaIncEx)
      then 1 else 0) ∧
    ((⟨2020, "NY", 0, 1, 0, 0⟩ : CombinedRow).mjCount = 0 ∧
      (⟨2020, "NY", 0, 1, 0, 0⟩ : CombinedRow).schoolIncidentsMJ = 0) :=
  ⟨(c3_merge_outer_join (aggregate mjIncEx) (aggregate gvaIncEx)).1 (2020, "NY"),
    ((c3_merge_outer_join (aggregate mjIncEx) (aggregate gvaIncEx)).2
      ⟨2020, "NY", 0, 1, 0, 0⟩ (by decide)).1 (by decide)⟩

/-- C8: a successful run writes exactly one artifact — the single file
`mass_shootings_report.html` — whose content embeds the rendered table
fragment and the trend chart fragment; nothing else is written. -/
theorem c8_single_artifact (mjCsv gvaCsv : Csv) (fs : List FileWrite)
    (h : runPipeline mjCsv gvaCsv = .ok fs) :
    ∃ mj gva, normalize "Date" mjCsv = .ok mj ∧ normalize "Incident Date" gvaCsv = .ok gva ∧
      fs.length = 1 ∧
      fs = [{ path := "mass_shootings_report.html"
              content := html_content
                (html_table (addMarker (merge (aggregate mj) (aggregate gva))))
                (trend_chart_html (national_trend (merge (aggregate mj) (aggregate gva)))) }] ∧
      (∀ table chart, (∃ pre rest, html_content table chart = pre ++ (table ++ rest)) ∧
        (∃ pre rest, html_content table chart = pre ++ (chart ++ rest))) := by
  unfold runPipeline at h
  cases hmj : normalize "Date" mjCsv with
  | error e => rw [hmj] at h; cases h
  | ok mj =>
    rw [hmj] at h
    cases hgva : normalize "Incident Date" gvaCsv with
    | error e => rw [hgva] at h; cases h
    | ok gva =>
      rw [hgva] at h
      cases h
      refine ⟨mj, gva, rfl, rfl, rfl, rfl, ?_⟩
      intro table chart
      constructor
      · refine ⟨"<!DOCTYPE html>\n<html lang=\x22en\x22>\n<head>\n<meta charset=\x22UTF-8\x22>\n" ++
          "<title>Hybrid Mass Shooting Report (MJ + GVA)</title>\n</head>\n<body>\n" ++
          "<h1>U.S. Mass Shootings — Hybrid MJ + GVA</h1>\n" ++
          "<p>School shootings are marked with <span class=\x22school\x22>★</span>.</p>\n" ++
          "<h2>State x Year Mass Shootings Table</h2>\n",
          "\n<h2>National Trend Chart</h2>\n" ++ chart ++
            "\n<h2>U.S. Map Placeholder</h2>\n</body>\n</html>\n", ?_⟩
        simp [html_content, String.append_assoc]
      · refine ⟨"<!DOCTYPE html>\n<html lang=\x22en\x22>\n<head>\n<meta charset=\x22UTF-8\x22>\n" ++
          "<title>Hybrid Mass Shooting Report (MJ + GVA)</title>\n</head>\n<body>\n" ++
          "<h1>U.S. Mass Shootings — Hybrid MJ + GVA</h1>\n" ++
          "<p>School shootings are marked with <span class=\x22school\x22>★</span>.</p>\n" ++
          "<h2>State x Year Mass Shootings Table</h2>\n" ++ table ++
          "\n<h2>National Trend Chart</h2>\n",
          "\n<h2>U.S. Map Placeholder</h2>\n</body>\n</html>\n", ?_⟩
        simp [html_content, String.append_assoc]

/-- Witness for C8 at concrete CSVs. -/
theorem c8_single_artifact_witness :
    ∃ mj gva, normalize "Date" mjCsvEx = .ok mj ∧
      normalize "Incident Date" gvaCsvEx = .ok gva ∧
      fsEx.length = 1 ∧
      fsEx = [{ path := "mass_shootings_report.html"
                content := html_content
                  (html_table (addMarker (merge (aggregate mj) (aggregate gva))))
                  (trend_chart_html (national_trend (merge (aggregate mj) (aggregate gva)))) }] ∧
      (∀ table chart, (∃ pre rest, html_content table chart = pre ++ (table ++ rest)) ∧
        (∃ pre rest, html_content table chart = pre ++ (chart ++ rest))) :=
  c8_single_artifact mjCsvEx gvaCsvEx fsEx rfl

/-- Summing group sizes over the year-`y` keys of a duplicate-free covering
key list counts exactly the rows of year `y`. -/
theorem sum_group_lengths_eq (rows : List Incident) (ks : List (Int × String))
    (hnd : ks.Nodup) (hcov : ∀ r ∈ rows, key r ∈ ks) (y : Int) :
    ((ks.filter (fun k => decide (k.1 = y))).map (fun k => (group rows k).length)).sum =
      (rows.filter (fun r => decide (r.year = y))).length := by
  have hpt : ∀ k ∈ ks.filter (fun k => decide (k.1 = y)),
      (group rows k).length =
        ((rows.filter (fun r => decide (r.year = y))).filter
          (fun r => decide (r.state = k.2))).length := by
    intro k hk
    have hk1 : k.1 = y := of_decide_eq_true (List.mem_filter.mp hk).2
    have heq : (rows.filter (fun r => decide (r.year = y))).filter
        (fun r => decide (r.state = k.2)) = group rows k := by
      rw [List.filter_filter]
      show _ = rows.filter (fun r => decide (key r = k))
      refine List.filter_congr ?_
      intro r _
      rcases k with ⟨k1, k2⟩
      cases hk1
      by_cases h1 : r.year = k1 <;> by_cases h2 : r.state = k2 <;>
        simp [key, Prod.ext_iff, h1, h2]
    rw [heq]
  rw [List.map_congr_left hpt]
  have hsplit : (ks.filter (fun k => decide (k.1 = y))).map
        (fun k => ((rows.filter (fun r => decide (r.year = y))).filter
          (fun r => decide (r.state = k.2))).length) =
      ((ks.filter (fun k => decide (k.1 = y))).map Prod.snd).map
        (fun s => ((rows.filter (fun r => decide (r.year = y))).filter
          (fun r => decide (r.state = s))).length) := by
    rw [List.map_map]
    rfl
  rw [hsplit]
  refine sum_filter_length (fun r => r.state)
    ((ks.filter (fun k => decide (k.1 = y))).map Prod.snd)
    (rows.filter (fun r => decide (r.year = y))) ?_ ?_
  · refine List.Nodup.map_on ?_ (List.Nodup.filter _ hnd)
    intro k1 hk1 k2 hk2 hsnd
    have h1 : k1.1 = y := of_decide_eq_true (List.mem_filter.mp hk1).2
    have h2 : k2.1 = y := of_decide_eq_true (List.mem_filter.mp hk2).2
    exact Prod.ext (h1.trans h2.symm) hsnd
  · intro r hr
    have h1 : r ∈ rows := (List.mem_filter.mp hr).1
    have h2 : r.year = y := of_decide_eq_true (List.mem_filter.mp hr).2
    have hkmem : key r ∈ ks.filter (fun k => decide (k.1 = y)) :=
      List.mem_filter.mpr ⟨hcov r h1, by simp [key, h2]⟩
    exact List.mem_map.mpr ⟨key r, hkmem, rfl⟩

/-- Every key of a dataset's rows appears among the merged table's keys. -/
theorem key_mem_merge_keys_left (mj gva : List Incident) :
    ∀ r ∈ mj, key r ∈ (aggKeys (aggregate mj) ++ aggKeys (aggregate gva)).dedup := by
  intro r hr
  rw [List.mem_dedup, List.mem_append]
  left
  rw [aggKeys_aggregate, List.mem_dedup]
  exact List.mem_map.mpr ⟨r, hr, rfl⟩

/-- Every key of the second dataset's rows appears among the merged keys. -/
theorem key_mem_merge_keys_right (mj gva : List Incident) :
    ∀ r ∈ gva, key r ∈ (aggKeys (aggregate mj) ++ aggKeys (aggregate gva)).dedup := by
  intro r hr
  rw [List.mem_dedup, List.mem_append]
  right
  rw [aggKeys_aggregate, List.mem_dedup]
  exact List.mem_map.mpr ⟨r, hr, rfl⟩

/-- C4: each national-trend row's totals, obtained by grouping the merged
per-`(Year, State)` table by year and summing its count columns, equal the
per-year row counts of the corresponding input datasets: summing the
per-state sums over states is grouping the raw rows by year alone. -/
theorem c4_national_trend (mjCsv gvaCsv : Csv) (mj gva : List Incident)
    (hmj : normalize "Date" mjCsv = .ok mj)
    (hgva : normalize "Incident Date" gvaCsv = .ok gva) :
    ∀ tr ∈ national_trend (merge (aggregate mj) (aggregate gva)),
      tr.mjTotal = (mj.filter (fun r => decide (r.year = tr.year))).length ∧
      tr.gvaTotal = (gva.filter (fun r => decide (r.year = tr.year))).length := by
  intro tr htr
  rcases List.mem_map.mp htr with ⟨y, _, rfl⟩
  have hfilter : (merge (aggregate mj) (aggregate gva)).filter
        (fun r => decide (r.year = y)) =
      (((aggKeys (aggregate mj) ++ aggKeys (aggregate gva)).dedup).filter
        (fun k => decide (k.1 = y))).map (mkCombinedRow (aggregate mj) (aggregate gva)) := by
    show (((aggKeys (aggregate mj) ++ aggKeys (aggregate gva)).dedup).map
      (mkCombinedRow (aggregate mj) (aggregate gva))).filter (fun r => decide (r.year = y)) = _
    rw [List.filter_map]
    rfl
  constructor
  · show ((((merge (aggregate mj) (aggregate gva))).filter
      (fun r => decide (r.year = y))).map (fun r => r.mjCount)).sum =
        (mj.filter (fun r => decide (r.year = y))).length
    rw [hfilter, List.map_map]
    have hmapc : ∀ k ∈ ((aggKeys (aggregate mj) ++ aggKeys (aggregate gva)).dedup).filter
        (fun k => decide (k.1 = y)),
        ((fun r => r.mjCount) ∘ mkCombinedRow (aggregate mj) (aggregate gva)) k =
          (group mj k).length := by
      intro k _
      exact lookup_count_eq_group_length (normalize_countCol hmj) k
    rw [List.map_congr_left hmapc]
    exact sum_group_lengths_eq mj _ (List.nodup_dedup _) (key_mem_merge_keys_left mj gva) y
  · show ((((merge (aggregate mj) (aggregate gva))).filter
      (fun r => decide (r.year = y))).map (fun r => r.gvaCount)).sum =
        (gva.filter (fun r => decide (r.year = y))).length
    rw [hfilter, List.map_map]
    have hmapc : ∀ k ∈ ((aggKeys (aggregate mj) ++ aggKeys (aggregate gva)).dedup).filter
        (fun k => decide (k.1 = y)),
        ((fun r => r.gvaCount) ∘ mkCombinedRow (aggregate mj) (aggregate gva)) k =
          (group gva k).length := by
      intro k _
      show ((lookupAgg (aggregate gva) k).map (fun a => a.count)).getD 0 = (group gva k).length
      exact lookup_count_eq_group_length (normalize_countCol hgva) k
    rw [List.map_congr_left hmapc]
    exact sum_group_lengths_eq gva _ (List.nodup_dedup _) (key_mem_merge_keys_right mj gva) y

/-- Witness for C4 at concrete CSVs and a concrete trend row. -/
theorem c4_national_trend_witness :
    (⟨2020, 2, 2⟩ : TrendRow).mjTotal =
        (mjIncEx.filter (fun r => decide (r.year = TrendRow.year ⟨2020, 2, 2⟩))).length ∧
      (⟨2020, 2, 2⟩ : TrendRow).gvaTotal =
        (gvaIncEx.filter (fun r => decide (r.year = TrendRow.year ⟨2020, 2, 2⟩))).length :=
  c4_national_trend mjCsvEx gvaCsvEx mjIncEx gvaIncEx rfl rfl ⟨2020, 2, 2⟩ (by decide)

end Shootings
